import Mathlib

/-!
Shallow embedding of the `mytardis_hsm` package (hsm.py, utils.py,
mytardis_hsm.py, tasks.py) and proofs about the behaviour its
specification describes.  Python exceptions are modelled by an explicit
error type, fallible code by `Except`, and Django model state by lists of
records.  Names follow the Python source where Lean allows it.
-/

/-- Python exceptions that appear in the package, tagged with their
message (and, for the Django `DoesNotExist` family, the model class). -/
inductive PyExc where
  | ioError (msg : String)
  | typeError (msg : String)
  | doesNotExist (cls : String) (msg : String)
  | dataFileNotVerified (msg : String)
  | dataFileObjectNotVerified (msg : String)
  | other (msg : String)
deriving DecidableEq, Repr

/-- Dynamically typed Python values, as far as the embedded code needs
them: strings, integers, booleans, tuples and `None`.  No variant is
callable, which matches every value the embedded call sites ever pass
where a callable is expected. -/
inductive PyVal where
  | str (s : String)
  | int (n : Int)
  | bool (b : Bool)
  | tuple (vs : List PyVal)
  | none

/-- `utils.Try`: quasi-coproduct of a successful result and a raised
exception, with subclasses `Success` and `Failure` as constructors. -/
inductive Try where
  | success (v : PyVal)
  | failure (e : PyExc)

/-- `Try.attempt(func, arg)` with one positional argument: run
`func(arg)` inside a try/except, wrapping the result in `success` and a
raised exception in `failure`.  A Python function that may raise is
embedded as `PyVal → Except PyExc PyVal`. -/
def Try.attempt (func : PyVal → Except PyExc PyVal) (arg : PyVal) : Try :=
  match func arg with
  | Except.ok v => Try.success v
  | Except.error e => Try.failure e

/-- `Try.attempt(func)` with zero positional arguments: run `func()`
inside the same try/except.  `hsm._try_online` reaches this call with
`func` bound to a storage-box option value, a plain Python value, and
calling a non-callable raises `TypeError`, which `attempt` catches. -/
def Try.attempt0 (func : PyVal) : Try :=
  match func with
  | _ => Try.failure (PyExc.typeError "object is not callable")

/-- `Success.map(func)` and `Failure.map(func)` from utils.py.  The
source of `Success.map` is `Try.attempt(func, (self.success,))`: the
1-tuple `(self.success,)` is passed as the single positional argument,
so `func` is applied to the tuple, not to the wrapped value.
`Failure.map` returns a `Failure` holding the same exception. -/
def Try.map : Try → (PyVal → Except PyExc PyVal) → Try
  | Try.success a, func => Try.attempt func (PyVal.tuple [a])
  | Try.failure e, _ => Try.failure e

/-- `get_or_raise`: the wrapped value of a `Success`, or re-raising the
exception held by a `Failure`. -/
def Try.get_or_raise : Try → Except PyExc PyVal
  | Try.success v => Except.ok v
  | Try.failure e => Except.error e

/-- The classification at the end of `hsm.online`, applied to the
`(size, blocks)` pair produced by the stat step:
`if size > min_file_size and blocks == 0: return False` else `True`.
`st_size` and `st_blocks` are non-negative, so `Nat` models them. -/
def online (size blocks min_file_size : Nat) : Bool :=
  if size > min_file_size && blocks == 0 then false else true

/-- Leading decimal digits of a character list, with the remainder. -/
def takeDigits : List Char → List Char × List Char
  | [] => ([], [])
  | c :: cs =>
    if c.isDigit then
      let p := takeDigits cs
      (c :: p.1, p.2)
    else ([], c :: cs)

/-- Numeric value of a list of decimal digits, as Python `int` does. -/
def digitsToNat (ds : List Char) : Nat :=
  ds.foldl (fun a c => a * 10 + (c.toNat - 48)) 0

/-- Scan a character list for an occurrence of `key` that is followed by
at least one digit; return the parsed number and the remainder after the
digits.  This realises one `<key>(\d+)` group of the regular expression
in `hsm._stat_subprocess`; the embedding takes the first viable
occurrence where the greedy regex engine takes the last, which extracts
the same numbers on real `stat` output and agrees on whether any match
exists at all. -/
def findKeyNum (key : List Char) : List Char → Option (Nat × List Char)
  | [] => Option.none
  | c :: cs =>
    if key.isPrefixOf (c :: cs) then
      let rest := (c :: cs).drop key.length
      let p := takeDigits rest
      if p.1.isEmpty then findKeyNum key cs
      else Option.some (digitsToNat p.1, p.2)
    else findKeyNum key cs

/-- One line matched against `^.*Size: (\d+).*Blocks: (\d+).*$`:
some (size, blocks) when the line matches, none otherwise. -/
def parseStatLine (line : String) : Option (Nat × Nat) :=
  match findKeyNum "Size: ".toList line.toList with
  | Option.some (size, rest) =>
    match findKeyNum "Blocks: ".toList rest with
    | Option.some (blocks, _) => Option.some (size, blocks)
    | Option.none => Option.none
  | Option.none => Option.none

/-- The loop of `_stat_subprocess` over the lines of the stat output:
the first matching line wins. -/
def firstStatMatch : List String → Option (Nat × Nat)
  | [] => Option.none
  | l :: ls =>
    match parseStatLine l with
    | Option.some r => Option.some r
    | Option.none => firstStatMatch ls

/-- `hsm._stat_subprocess`.  Its input here is the outcome of invoking
the `stat` subprocess: either the captured output lines or the exception
the invocation raised.  When the invocation raises, the except clause
wraps the error as an `IOError`.  When no line matches the regular
expression, control falls off the end of the function, which in Python
returns `None` — hence the `Option` in the result. -/
def _stat_subprocess (proc : Except PyExc (List String)) :
    Except PyExc (Option (Nat × Nat)) :=
  match proc with
  | Except.error _ =>
    Except.error (PyExc.ioError "Unable to detect size or blocks")
  | Except.ok lines => Except.ok (firstStatMatch lines)

/-- The fallback path of `hsm.online` that unpacks
`size, blocks = _stat_subprocess(path)` and then classifies.  Unpacking
the implicit `None` raises a `TypeError`, which is how Python executes
that assignment. -/
def online_subprocess (proc : Except PyExc (List String))
    (min_file_size : Nat) : Except PyExc Bool :=
  match _stat_subprocess proc with
  | Except.error e => Except.error e
  | Except.ok (Option.some sb) => Except.ok (online sb.1 sb.2 min_file_size)
  | Except.ok Option.none =>
    Except.error (PyExc.typeError "cannot unpack non-iterable NoneType object")

/-- The lambda `lambda l: os.path.join(l, dfo.uri)` from
`hsm._try_online`; joining expects a string on the left and raises
`TypeError` on any other value (such as the tuple `Try.map` feeds it). -/
def osPathJoinUri (uri : String) (l : PyVal) : Except PyExc PyVal :=
  match l with
  | PyVal.str s => Except.ok (PyVal.str (s ++ "/" ++ uri))
  | _ => Except.error (PyExc.typeError "expected str, bytes or os.PathLike object")

/-- The lambda `lambda path: online(path, min_file_size)` from
`hsm._try_online`, with the stat outcome for each path supplied as a
function. -/
def onlineAt (statOf : String → Except PyExc (Nat × Nat))
    (min_file_size : Nat) (v : PyVal) : Except PyExc PyVal :=
  match v with
  | PyVal.str path =>
    match statOf path with
    | Except.ok sb => Except.ok (PyVal.bool (online sb.1 sb.2 min_file_size))
    | Except.error e => Except.error e
  | _ => Except.error (PyExc.typeError "expected str, bytes or os.PathLike object")

/-- `hsm._try_online`.  The argument expression
`dfo.storage_box.options.get(key="location").value` is evaluated before
`Try.attempt` is entered, so its outcome is the input `locLookup`; an
exception raised there propagates out of the function (the
`Except.error` of the outer `Except`), while only what happens inside
`Try.attempt` and the chained `map`s is captured in the returned `Try`. -/
def try_online (locLookup : Except PyExc PyVal) (uri : String)
    (statOf : String → Except PyExc (Nat × Nat)) (min_file_size : Nat) :
    Except PyExc Try :=
  match locLookup with
  | Except.error e => Except.error e
  | Except.ok loc =>
    Except.ok (((Try.attempt0 loc).map (osPathJoinUri uri)).map
      (onlineAt statOf min_file_size))

/-- A `DataFileObject` as the online-check entry points see it. -/
structure DFO where
  id : Nat
  verified : Bool
deriving DecidableEq, Repr

/-- A `DataFile` with its preferred `DataFileObject`
(`datafile.get_preferred_dfo()`). -/
structure DataFile where
  id : Nat
  verified : Bool
  preferred_dfo : DFO
deriving DecidableEq, Repr

/-- Whether an exception is one of the two Unverified errors of
mytardis_hsm.py. -/
def isUnverifiedError : PyExc → Bool
  | PyExc.dataFileNotVerified _ => true
  | PyExc.dataFileObjectNotVerified _ => true
  | _ => false

/-- Whether an exception is `StorageBoxOption.DoesNotExist`, the one
exception `dfo_online` catches around the checker. -/
def isStorageBoxOptionMissing : PyExc → Bool
  | PyExc.doesNotExist cls _ => cls == "StorageBoxOption"
  | _ => false

/-- `mytardis_hsm.dfo_online`.  The behaviour of
`_get_checker(dfo.storage_box)` followed by `checker.online(dfo,
callback)` is supplied as `checker`: either the list of identifiers of
DFOs for which asynchronous work was scheduled (or the callback engaged),
or the exception that call raised.  An unverified DFO raises
`DataFileObjectNotVerified` before the checker is consulted, so the
error case carries no scheduled work and the callback is never invoked;
for a verified DFO a `StorageBoxOption.DoesNotExist` from the checker is
caught and logged, and any other exception propagates. -/
def dfo_online (checker : Except PyExc (List Nat)) (dfo : DFO) :
    Except PyExc (List Nat) :=
  if dfo.verified then
    match checker with
    | Except.ok effects => Except.ok effects
    | Except.error e =>
      if isStorageBoxOptionMissing e then Except.ok [] else Except.error e
  else
    Except.error (PyExc.dataFileObjectNotVerified
      "Cannot check online status of unverified DataFileObject")

/-- `mytardis_hsm.df_online`: guard on `datafile.verified`, then defer to
`dfo_online` on the preferred DFO. -/
def df_online (checker : Except PyExc (List Nat)) (df : DataFile) :
    Except PyExc (List Nat) :=
  if df.verified then dfo_online checker df.preferred_dfo
  else
    Except.error (PyExc.dataFileNotVerified
      "Cannot check online status of unverified DataFile")

/-- Python `str` on a boolean, as stored into
`DatafileParameter.string_value` by the handlers. -/
def pyStr (b : Bool) : String := if b then "True" else "False"

/-- `mytardis_hsm.datafile_online`, collapsed to the lookup that decides
its result: the stored `string_value` of the online parameter of the
requested datafile (the schema and parameter name are fixed by the HSM
namespace).  A missing record raises the Django `DoesNotExist` of the
failing `objects.get`. -/
def datafile_online (params : List (Nat × String)) (dfId : Nat) :
    Except PyExc Bool :=
  match params.find? (fun p => p.1 == dfId) with
  | Option.some p => Except.ok (p.2 == "True")
  | Option.none =>
    Except.error (PyExc.doesNotExist "DatafileParameter"
      "DatafileParameter matching query does not exist")

/-- One `DatafileParameter` row as `tasks.update_df_status` sees it,
together with the model inputs that decide what happens to it during a
sweep: whether its datafile and preferred DFO are verified, and the
boolean the fresh online check would deliver to the callback for it. -/
structure OnlineParam where
  schemaNs : String
  name : String
  dfId : Nat
  string_value : String
  dfVerified : Bool
  dfoVerified : Bool
  fresh : Bool
deriving DecidableEq, Repr

/-- `tasks._update_online_handler`.  On a `Success` the handler assigns
the fresh result to `param.string_value` and saves, unconditionally (the
assignment stores the boolean, which Django persists in its `str` form,
modelled by `pyStr`; the leftover `pdb.set_trace()` line in the source
is not modelled).  On a `Failure` the raised exception is either the
caught-and-logged `IOError` or escapes the callback thread; in both
cases no save happens.  The returned flag records whether
`param.save()` was issued. -/
def _update_online_handler (p : OnlineParam) (result : Except PyExc Bool) :
    OnlineParam × Bool :=
  match result with
  | Except.ok b => ({ p with string_value := pyStr b }, true)
  | Except.error _ => (p, false)

/-- The filter of `update_df_status` on `DatafileParameter` rows: same
schema and parameter name `online`.  The further restriction
`string_value="True"` is commented out in the source and therefore
absent here. -/
def selected (ns : String) (p : OnlineParam) : Bool :=
  p.schemaNs == ns && p.name == "online"

/-- The effect of one non-raising iteration of the sweep loop on a row:
a selected row of a verified datafile has the handler applied to the
fresh check result; every other row is untouched. -/
def sweepStep (ns : String) (p : OnlineParam) : OnlineParam :=
  if selected ns p && p.dfVerified then
    (_update_online_handler p (Except.ok p.fresh)).1
  else p

/-- How a run of `update_df_status` ended: normally; by a per-candidate
Unverified error caught by the except clauses that wrap the whole loop;
or by a missing schema or parameter name, caught and logged the same
way.  Exceptions of these kinds never escape the task, which is why the
model is a total function returning this tag. -/
inductive SweepExit where
  | completed
  | abortedUnverified
  | schemaMissing
  | pnameMissing
deriving DecidableEq, Repr

/-- The loop of `update_df_status` over the parameter rows, delivering
the fresh check result to `tasks._update_online_handler` for each
selected candidate of a verified datafile.  When a candidate datafile is
verified but its preferred DFO is not, `df_online` raises
`DataFileObjectNotVerified`; the try/except wraps the whole loop, so the
raise aborts the sweep and every later row is left untouched. -/
def sweepLoop (ns : String) : List OnlineParam → List OnlineParam × SweepExit
  | [] => ([], SweepExit.completed)
  | p :: rest =>
    if selected ns p && p.dfVerified && !p.dfoVerified then
      (p :: rest, SweepExit.abortedUnverified)
    else
      let r := sweepLoop ns rest
      (sweepStep ns p :: r.1, r.2)

/-- `tasks.update_df_status`.  `schemaExists` and `pnameExists` are the
outcomes of resolving the schema namespace and the `online`
`ParameterName`; when either lookup raises `DoesNotExist`, the except
clause logs it and nothing is processed. -/
def update_df_status (schemaExists pnameExists : Bool) (ns : String)
    (rows : List OnlineParam) : List OnlineParam × SweepExit :=
  if schemaExists then
    if pnameExists then sweepLoop ns rows
    else (rows, SweepExit.pnameMissing)
  else (rows, SweepExit.schemaMissing)

/-- The Django state `tasks.create_df_status` reads and writes: the
existing schema namespaces, the `DatafileParameterSet` rows as
`(namespace, datafile id)` pairs, and the online `DatafileParameter`
rows as `(namespace, datafile id, string_value)` triples. -/
structure TaskState where
  schemas : List String
  paramSets : List (String × Nat)
  onlineParams : List (String × Nat × String)
deriving DecidableEq, Repr

/-- `tasks._create_online_handler`.  On a `Success` value `b`, and with
the datafile lock acquired, it creates the `DatafileParameterSet` and an
online `DatafileParameter` holding `str(b)`; without the lock it does
nothing.  On a `Failure` the re-raised exception is logged (`IOError`)
or escapes the callback thread, and in either case no record is
created. -/
def _create_online_handler (df : DataFile) (ns : String) (lockOk : Bool)
    (result : Except PyExc Bool) (st : TaskState) : TaskState :=
  match result with
  | Except.ok b =>
    if lockOk then
      { st with
        paramSets := (ns, df.id) :: st.paramSets,
        onlineParams := (ns, df.id, pyStr b) :: st.onlineParams }
    else st
  | Except.error _ => st

/-- `tasks.create_df_status`.  `check` is the result the asynchronous
online check would deliver to the callback, `lockOk` whether the
datafile lock is acquired in the handler.  The returned flag records
whether `df_online` was invoked (the existing-record and unverified
branches return before it).  A verified datafile whose preferred DFO is
unverified makes `df_online` raise; the except clause catches and logs
it, leaving the state unchanged. -/
def create_df_status (df : DataFile) (ns : String)
    (check : Except PyExc Bool) (lockOk : Bool) (st : TaskState) :
    TaskState × Bool :=
  if df.verified then
    if ns ∈ st.schemas then
      if (ns, df.id) ∈ st.paramSets then (st, false)
      else
        if df.preferred_dfo.verified then
          (_create_online_handler df ns lockOk check st, true)
        else (st, true)
    else (st, false)
  else (st, false)

/-- C1: for every size, blocks and threshold, the classifier returns
`false` (offline) iff `size > min_file_size` and `blocks = 0`, and hence
`true` in every other case, in particular at the boundary
`size = min_file_size` with zero blocks. -/
theorem online_false_iff (size blocks min_file_size : Nat) :
    (online size blocks min_file_size = false
      ↔ size > min_file_size ∧ blocks = 0)
    ∧ online min_file_size 0 min_file_size = true := by
  constructor
  · by_cases h1 : size > min_file_size <;> by_cases h2 : blocks = 0 <;>
      simp [online, h1, h2]
  · simp [online]

/-- C2: contrary to the claim, `update_df_status` does re-evaluate a
record whose stored value is already `"False"` — the
`string_value="True"` restriction is commented out in the source — and
the handler writes the fresh result back, flipping the record to
`"True"` when the fresh check says online. -/
theorem sweep_reevaluates_false_record :
    update_df_status true true "hsm-ns"
      [⟨"hsm-ns", "online", 7, "False", true, true, true⟩]
      = ([⟨"hsm-ns", "online", 7, "True", true, true, true⟩],
         SweepExit.completed) := rfl

/-- C3: contrary to the claim, `_update_online_handler` issues a save
even when the fresh result equals the stored value: on stored `"True"`
and fresh result `true` the record is written back unchanged (save flag
`true`). -/
theorem handler_writes_without_flip :
    _update_online_handler ⟨"hsm-ns", "online", 3, "True", true, true, true⟩
      (Except.ok true)
      = (⟨"hsm-ns", "online", 3, "True", true, true, true⟩, true) := rfl

/-- C4: an unverified DFO (resp. DataFile) makes `dfo_online`
(resp. `df_online`) raise its Unverified error for every possible
checker behaviour — so no asynchronous work is scheduled and the
callback is never invoked — while for verified entities (checker not
itself raising an Unverified error) no Unverified error is raised. -/
theorem unverified_fails_fast (checker : Except PyExc (List Nat))
    (dfo : DFO) (df : DataFile)
    (hc : ∀ e, checker = Except.error e → isUnverifiedError e = false) :
    (dfo.verified = false →
      dfo_online checker dfo
        = Except.error (PyExc.dataFileObjectNotVerified
            "Cannot check online status of unverified DataFileObject"))
    ∧ (df.verified = false →
      df_online checker df
        = Except.error (PyExc.dataFileNotVerified
            "Cannot check online status of unverified DataFile"))
    ∧ (dfo.verified = true →
      ∀ e, dfo_online checker dfo = Except.error e → isUnverifiedError e = false)
    ∧ (df.verified = true → df.preferred_dfo.verified = true →
      ∀ e, df_online checker df = Except.error e
        → isUnverifiedError e = false) := by
  have key : ∀ d : DFO, d.verified = true →
      ∀ e, dfo_online checker d = Except.error e → isUnverifiedError e = false := by
    intro d hd e he
    cases checker with
    | ok effs => simp [dfo_online, hd] at he
    | error e0 =>
      by_cases hs : isStorageBoxOptionMissing e0 = true
      · simp [dfo_online, hd, hs] at he
      · simp [dfo_online, hd, hs] at he
        exact he ▸ hc e0 rfl
  refine ⟨?_, ?_, key dfo, ?_⟩
  · intro h; simp [dfo_online, h]
  · intro h; simp [df_online, h]
  · intro h hp e he
    exact key df.preferred_dfo hp e (by simpa [df_online, h] using he)

/-- Witness for C4 at a concrete unverified DFO. -/
theorem unverified_fails_fast_witness :
    dfo_online (Except.ok []) ⟨1, false⟩
      = Except.error (PyExc.dataFileObjectNotVerified
          "Cannot check online status of unverified DataFileObject") :=
  (unverified_fails_fast (Except.ok []) ⟨1, false⟩ ⟨1, false, ⟨1, false⟩⟩
    (fun _ he => by simp at he)).1 rfl

/-- C5: `create_df_status` is idempotent — when a status record for the
(datafile, namespace) pair already exists, the verified datafile is left
alone: the state is unchanged and `df_online` is not invoked; and when
no record exists, a successful run adds exactly one record, after which
a second call is a no-op, leaving exactly one record. -/
theorem create_df_status_idempotent (df : DataFile) (ns : String)
    (check check2 : Except PyExc Bool) (lockOk : Bool) (st : TaskState)
    (hv : df.verified = true) :
    ((ns, df.id) ∈ st.paramSets →
      create_df_status df ns check lockOk st = (st, false))
    ∧ (∀ b, ns ∈ st.schemas → check = Except.ok b → lockOk = true →
        df.preferred_dfo.verified = true → (ns, df.id) ∉ st.paramSets →
        ((create_df_status df ns check lockOk st).1.paramSets
            = (ns, df.id) :: st.paramSets
         ∧ create_df_status df ns check2 lockOk
             (create_df_status df ns check lockOk st).1
             = ((create_df_status df ns check lockOk st).1, false)
         ∧ List.countP (fun r => decide (r = (ns, df.id)))
             (create_df_status df ns check lockOk st).1.paramSets = 1)) := by
  constructor
  · intro hmem
    by_cases hs : ns ∈ st.schemas <;>
      simp [create_df_status, hv, hs, hmem]
  · intro b hs hch hl hdfo hmem
    subst hch; subst hl
    have h1 : create_df_status df ns (Except.ok b) true st
        = ({ st with
              paramSets := (ns, df.id) :: st.paramSets,
              onlineParams := (ns, df.id, pyStr b) :: st.onlineParams },
           true) := by
      simp [create_df_status, hv, hs, hmem, hdfo, _create_online_handler]
    have hz : List.countP (fun r => decide (r = (ns, df.id))) st.paramSets
        = 0 := by
      refine List.countP_eq_zero.mpr ?_
      intro a ha
      simp only [decide_eq_true_eq]
      intro h
      exact hmem (h ▸ ha)
    refine ⟨by rw [h1], ?_, ?_⟩
    · rw [h1]
      simp [create_df_status, hv, hs]
    · rw [h1]
      simp [List.countP_cons, hz]

/-- Witness for C5 at a concrete state that already holds the record. -/
theorem create_df_status_idempotent_witness :
    create_df_status ⟨5, true, ⟨6, true⟩⟩ "hsm-ns" (Except.ok true) true
        ⟨["hsm-ns"], [("hsm-ns", 5)], []⟩
      = (⟨["hsm-ns"], [("hsm-ns", 5)], []⟩, false) :=
  (create_df_status_idempotent ⟨5, true, ⟨6, true⟩⟩ "hsm-ns" (Except.ok true)
      (Except.ok true) true ⟨["hsm-ns"], [("hsm-ns", 5)], []⟩ rfl).1
    (by simp)

/-- C6: contrary to the claim, `Success(a).map(f)` applies `f` to the
1-tuple `(a,)` rather than to `a`: mapping a non-raising identity over
`Success("x")` yields `Success(("x",))`.  The `Failure` half of the
claim does hold: `Failure(e).map(f) = Failure(e)` for every `f`. -/
theorem success_map_applies_to_tuple :
    Try.map (Try.success (PyVal.str "x")) (fun v => Except.ok v)
      = Try.success (PyVal.tuple [PyVal.str "x"])
    ∧ ∀ (e : PyExc) (f : PyVal → Except PyExc PyVal),
        Try.map (Try.failure e) f = Try.failure e :=
  ⟨rfl, fun _ _ => rfl⟩

/-- C7: contrary to the claim, when the stat output contains no line
matching the Size/Blocks pattern, `_stat_subprocess` falls off the end
and returns `None`, and the unpacking in `online` fails with a
`TypeError` rather than the documented `IOError`; only a failing
process invocation produces the typed `IOError`. -/
theorem stat_fallback_typeerror :
    online_subprocess
      (Except.ok ["stat: cannot stat /data/file.txt: No such file or directory"])
      350
      = Except.error
          (PyExc.typeError "cannot unpack non-iterable NoneType object")
    ∧ ∀ msg, online_subprocess (Except.error (PyExc.other msg)) 350
      = Except.error (PyExc.ioError "Unable to detect size or blocks") :=
  ⟨rfl, fun _ => rfl⟩

/-- C8 counterexample: a per-candidate Unverified error does not merely
skip that candidate — it aborts the sweep.  With a first candidate whose
preferred DFO is unverified and a second, healthy candidate whose fresh
check is offline, the second candidate is left unprocessed (its record
stays `"True"`), contradicting the claim that all remaining candidates
are processed. -/
theorem sweep_abort_counterexample :
    update_df_status true true "hsm-ns"
      [⟨"hsm-ns", "online", 1, "True", true, false, true⟩,
       ⟨"hsm-ns", "online", 2, "True", true, true, false⟩]
      = ([⟨"hsm-ns", "online", 1, "True", true, false, true⟩,
          ⟨"hsm-ns", "online", 2, "True", true, true, false⟩],
         SweepExit.abortedUnverified) := rfl

/-- Candidates before an aborting one are processed normally. -/
theorem sweepLoop_no_abort (ns : String) (pre : List OnlineParam)
    (hpre : ∀ p ∈ pre,
      ¬(selected ns p = true ∧ p.dfVerified = true ∧ p.dfoVerified = false))
    (tail : List OnlineParam) :
    sweepLoop ns (pre ++ tail)
      = (pre.map (sweepStep ns) ++ (sweepLoop ns tail).1,
         (sweepLoop ns tail).2) := by
  induction pre with
  | nil => simp
  | cons p rest ih =>
    have hg : (selected ns p && p.dfVerified && !p.dfoVerified) = false := by
      have hp := hpre p (List.mem_cons_self p rest)
      by_cases h1 : selected ns p = true <;>
        by_cases h2 : p.dfVerified = true <;>
        by_cases h3 : p.dfoVerified = true <;>
        simp_all
    have ih2 := ih (fun q hq => hpre q (List.mem_cons_of_mem p hq))
    simp [sweepLoop, hg, ih2]

/-- C8 amended: a per-candidate Unverified error is caught and logged by
the except clauses of `update_df_status` (so no exception of the handled
kinds escapes the task, the sweep returning an exit tag instead), but it
ends the sweep at that candidate: candidates before the failure are
processed, while the failing candidate and everything after it are left
untouched; and when the schema or the online ParameterName cannot be
resolved, the sweep touches nothing at all. -/
theorem sweep_abort_behaviour (ns : String) (pre post : List OnlineParam)
    (bad : OnlineParam)
    (hpre : ∀ p ∈ pre,
      ¬(selected ns p = true ∧ p.dfVerified = true ∧ p.dfoVerified = false))
    (hsel : selected ns bad = true) (hdf : bad.dfVerified = true)
    (hdfo : bad.dfoVerified = false) :
    update_df_status true true ns (pre ++ bad :: post)
      = (pre.map (sweepStep ns) ++ bad :: post, SweepExit.abortedUnverified)
    ∧ (∀ rows, update_df_status false true ns rows
        = (rows, SweepExit.schemaMissing))
    ∧ (∀ rows, update_df_status true false ns rows
        = (rows, SweepExit.pnameMissing)) := by
  refine ⟨?_, fun _ => rfl, fun _ => rfl⟩
  have habort : sweepLoop ns (bad :: post)
      = (bad :: post, SweepExit.abortedUnverified) := by
    simp [sweepLoop, hsel, hdf, hdfo]
  simp [update_df_status, sweepLoop_no_abort ns pre hpre (bad :: post), habort]

/-- Witness for C8 at a concrete three-candidate population. -/
theorem sweep_abort_behaviour_witness :
    update_df_status true true "hsm-ns"
      ([⟨"hsm-ns", "online", 1, "True", true, true, false⟩]
        ++ ⟨"hsm-ns", "online", 2, "True", true, false, true⟩
          :: [⟨"hsm-ns", "online", 3, "True", true, true, false⟩])
      = ([⟨"hsm-ns", "online", 1, "True", true, true, false⟩].map
           (sweepStep "hsm-ns")
          ++ ⟨"hsm-ns", "online", 2, "True", true, false, true⟩
            :: [⟨"hsm-ns", "online", 3, "True", true, true, false⟩],
         SweepExit.abortedUnverified) :=
  (sweep_abort_behaviour "hsm-ns"
      [⟨"hsm-ns", "online", 1, "True", true, true, false⟩]
      [⟨"hsm-ns", "online", 3, "True", true, true, false⟩]
      ⟨"hsm-ns", "online", 2, "True", true, false, true⟩
      (by decide) (by decide) (by decide) (by decide)).1

/-- C9: contrary to the claim, `_try_online` is not total with respect
to exceptions: the storage-box location lookup is evaluated before
`Try.attempt` is entered, so an exception raised there propagates out of
`_try_online` instead of being captured in the returned `Try`.  And on
the path where the lookup succeeds, `Try.attempt` is handed the option
value itself rather than a function, so calling it raises `TypeError`
and every run yields `Failure(TypeError)` rather than a result. -/
theorem try_online_lookup_escapes :
    try_online
      (Except.error (PyExc.doesNotExist "StorageBoxOption"
        "StorageBoxOption matching query does not exist"))
      "stream/test.jpg" (fun _ => Except.ok (1000, 8)) 350
      = Except.error (PyExc.doesNotExist "StorageBoxOption"
          "StorageBoxOption matching query does not exist")
    ∧ try_online (Except.ok (PyVal.str "/srv/data")) "stream/test.jpg"
        (fun _ => Except.ok (1000, 8)) 350
      = Except.ok (Try.failure (PyExc.typeError "object is not callable")) :=
  ⟨rfl, rfl⟩

/-- C10: reading back a persisted status returns `true` iff the stored
string is exactly `"True"`; the string `str(b)` written by the creation
handler reads back as `b`, while `"true"` or `"1"` (or any other text)
silently reads as offline. -/
theorem datafile_online_spec (params : List (Nat × String)) (dfId : Nat)
    (q : Nat × String)
    (hq : params.find? (fun p => p.1 == dfId) = Option.some q) :
    (datafile_online params dfId = Except.ok true ↔ q.2 = "True")
    ∧ (∀ b, datafile_online [(dfId, pyStr b)] dfId = Except.ok b)
    ∧ datafile_online [(dfId, "true")] dfId = Except.ok false
    ∧ datafile_online [(dfId, "1")] dfId = Except.ok false := by
  refine ⟨?_, ?_, ?_, ?_⟩
  · simp [datafile_online, hq]
  · intro b; cases b <;> simp [datafile_online, pyStr, List.find?]
  · simp [datafile_online, List.find?]
  · simp [datafile_online, List.find?]

/-- Witness for C10 at a concrete stored record. -/
theorem datafile_online_spec_witness :
    datafile_online [(9, "True")] 9 = Except.ok true :=
  ((datafile_online_spec [(9, "True")] 9 (9, "True") rfl).1).mpr rfl
